import Mathlib

/-!
Shallow embedding of the ephemeral-task lifecycle manager of the
kube-job-mcp-example repository.

The orchestration logic of the repository lives in two variants of one MCP tool
handler. The pod variant creates a pod named from the current
millisecond timestamp, watches the pod event stream with a five-minute
`setTimeout` deadline, reads the pod log as the result, deletes the pod
best-effort, and returns the log text. The job variant creates a job,
watches the pods labelled with the job name while recording the observed
pod name on each event, reads the log of that pod, and has its delete call
commented out.

Key control-flow facts embedded here, traceable to the source:
- the watch promise rejects on timeout and on a non-aborted stream error;
  a rejection propagates out of the handler, so the log read and the
  delete call after the `await` are skipped on those paths;
- the watch callback resolves the promise on the first event whose phase,
  with a missing phase coerced to the empty string, is Succeeded or Failed,
  and aborts the watch request then; the timeout handler also aborts; the
  stream-error handler does not abort;
- the job variant assigns `podName = pod.metadata.name` on every event, so
  the name handed to the log reader is the one of the last processed event;
- names are built as `fetch-pod-` or `fetch-job-` plus `Date.now()`;
- the namespace is `process.env.K8S_NAMESPACE` with or-else fallback
  `default` (taken when the variable is absent or set to the empty
  string, the only falsy string) while the watch timeout is the
  hardcoded constant `5 * 60 * 1000`.

The stream is modelled as a chronologically ordered list of items, each
carrying its arrival offset in milliseconds since the watch started; an
item is delivered to the callback only if it arrives strictly before the
deadline, otherwise the deadline timer settles the promise first.
-/

/-- One snapshot of the execution unit as delivered by a watch event:
the `metadata.name` and the optional `status.phase` of the pod. -/
structure PodSnapshot where
  name : String
  phase : Option String
deriving DecidableEq, Repr

/-- One item of the watch stream: either a lifecycle event `(type, pod)`
arriving `t` milliseconds after the watch started, or a stream error
arriving at `t` (the done-callback with a non-aborted error). -/
inductive StreamItem where
  | event (t : Nat) (evType : String) (pod : PodSnapshot)
  | errorAt (t : Nat) (msg : String)
deriving DecidableEq, Repr

/-- How the watch promise settled: resolved after a terminal event,
rejected by the deadline timer, or rejected by a stream error. -/
inductive Settle where
  | term
  | timedOut
  | streamErr (e : String)
deriving DecidableEq, Repr

/-- Result of running the watch promise: how it settled, the final value
of the handler variable `podName`, and how many times `abort` was
invoked on the watch request. -/
structure WatchRun where
  settle : Settle
  lastName : String
  abortCalls : Nat
deriving DecidableEq, Repr

/-- The terminal-phase predicate of the watch callback:
the list of Succeeded and Failed must contain the phase, with a missing
phase coerced to the empty string first. -/
def terminalPhase (phase : Option String) : Bool :=
  ["Succeeded", "Failed"].contains (phase.getD "")

/-- The watch promise of the tool handler. `timeoutMs` is the deadline,
`established` records whether the watch request reference was set (so that
`requestRef?.abort()` is a real call), `setName` distinguishes the job
variant (which assigns `podName = pod.metadata.name` on every event) from
the pod variant (which never reassigns it). Items are processed in order;
an item arriving at or after the deadline is preempted by the timeout
handler, which aborts and rejects; a terminal event clears the timer,
aborts and resolves; a stream error rejects without aborting. -/
def runWatch (timeoutMs : Nat) (established : Bool) (setName : Bool) :
    String → List StreamItem → WatchRun
  | nm, [] =>
    { settle := .timedOut, lastName := nm,
      abortCalls := if established then 1 else 0 }
  | nm, .event t _ pod :: rest =>
    if t < timeoutMs then
      let nm2 := if setName then pod.name else nm
      if terminalPhase pod.phase then
        { settle := .term, lastName := nm2,
          abortCalls := if established then 1 else 0 }
      else runWatch timeoutMs established setName nm2 rest
    else
      { settle := .timedOut, lastName := nm,
        abortCalls := if established then 1 else 0 }
  | nm, .errorAt t msg :: _rest =>
    if t < timeoutMs then
      { settle := .streamErr msg, lastName := nm, abortCalls := 0 }
    else
      { settle := .timedOut, lastName := nm,
        abortCalls := if established then 1 else 0 }

/-- The cluster environment a single orchestration call interacts with:
the outcome of the create call, whether the watch request was established,
the event stream, the log store keyed by pod name, and the outcome of the
delete call. -/
structure Cluster where
  createResult : Except String Unit
  watchEstablished : Bool
  stream : List StreamItem
  logsFor : String → Except String String
  deleteResult : Except String Unit

/-- The single outcome surfaced by one orchestration call: a rethrown
submission error, the thrown timeout rejection, a propagated stream
error, or the normal text response. -/
inductive Outcome where
  | submissionError (e : String)
  | timeoutThrown
  | streamFailure (e : String)
  | response (text : String)
deriving DecidableEq, Repr

/-- Observable trace of one orchestration call: its outcome, the name of
the created unit, and how many times each cluster primitive ran. -/
structure CallTrace where
  outcome : Outcome
  unitName : String
  createCalls : Nat
  watchStarted : Bool
  abortCalls : Nat
  extractName : Option String
  deleteCalls : Nat
deriving DecidableEq, Repr

/-- The hardcoded watch deadline of both variants: `5 * 60 * 1000`. -/
def WATCH_TIMEOUT_MS : Nat := 5 * 60 * 1000

/-- The pod name built by the pod variant from the observed timestamp. -/
def podNameOf (now : Nat) : String := "fetch-pod-" ++ Nat.repr now

/-- The job name built by the job variant from the observed timestamp. -/
def jobNameOf (now : Nat) : String := "fetch-job-" ++ Nat.repr now

/-- The pod variant of the fetch-url tool handler. Submission failure is
rethrown before any watch. A watch settled by timeout or stream error
rejects the awaited promise, so the handler throws before the log read
and before the delete call. A terminal event leads to the log read
(an error there is converted into an error text) and then to the
best-effort delete, whose own failure is swallowed. -/
def fetchUrlPod (now : Nat) (c : Cluster) : CallTrace :=
  let podName := podNameOf now
  match c.createResult with
  | .error e =>
    { outcome := .submissionError e, unitName := podName, createCalls := 1,
      watchStarted := false, abortCalls := 0, extractName := none,
      deleteCalls := 0 }
  | .ok _ =>
    let w := runWatch WATCH_TIMEOUT_MS c.watchEstablished false podName c.stream
    match w.settle with
    | .timedOut =>
      { outcome := .timeoutThrown, unitName := podName, createCalls := 1,
        watchStarted := true, abortCalls := w.abortCalls, extractName := none,
        deleteCalls := 0 }
    | .streamErr e =>
      { outcome := .streamFailure e, unitName := podName, createCalls := 1,
        watchStarted := true, abortCalls := w.abortCalls, extractName := none,
        deleteCalls := 0 }
    | .term =>
      let html :=
        match c.logsFor podName with
        | .ok text => text
        | .error e => "Error retrieving logs: " ++ e
      { outcome := .response html, unitName := podName, createCalls := 1,
        watchStarted := true, abortCalls := w.abortCalls,
        extractName := some podName, deleteCalls := 1 }

/-- The job variant of the fetch-url tool handler. Differences from the
pod variant: the unit is a job, the watch records the observed pod name
on every event and the log read uses that recorded name, and the delete
call is commented out, so cleanup never runs. -/
def fetchUrlJob (now : Nat) (c : Cluster) : CallTrace :=
  let jobName := jobNameOf now
  match c.createResult with
  | .error e =>
    { outcome := .submissionError e, unitName := jobName, createCalls := 1,
      watchStarted := false, abortCalls := 0, extractName := none,
      deleteCalls := 0 }
  | .ok _ =>
    let w := runWatch WATCH_TIMEOUT_MS c.watchEstablished true "" c.stream
    match w.settle with
    | .timedOut =>
      { outcome := .timeoutThrown, unitName := jobName, createCalls := 1,
        watchStarted := true, abortCalls := w.abortCalls, extractName := none,
        deleteCalls := 0 }
    | .streamErr e =>
      { outcome := .streamFailure e, unitName := jobName, createCalls := 1,
        watchStarted := true, abortCalls := w.abortCalls, extractName := none,
        deleteCalls := 0 }
    | .term =>
      let html :=
        match c.logsFor w.lastName with
        | .ok text => text
        | .error e => "Error retrieving logs: " ++ e
      { outcome := .response html, unitName := jobName, createCalls := 1,
        watchStarted := true, abortCalls := w.abortCalls,
        extractName := some w.lastName, deleteCalls := 0 }

/-- The configuration the server reads at startup: the target namespace
comes from `process.env.K8S_NAMESPACE` with fallback `default`; the
watch timeout is the hardcoded constant `5 * 60 * 1000`. -/
structure ServerConfig where
  NAMESPACE : String
  watchTimeoutMs : Nat
deriving DecidableEq, Repr

/-- The or-else of the source, `value || fallback`: an environment value
is a string or undefined, and the only falsy string is the empty one, so
the fallback is taken both when the variable is absent and when it is set
to the empty string. -/
def orElseDefault (v : Option String) (fallback : String) : String :=
  match v with
  | none => fallback
  | some s => if s = "" then fallback else s

/-- Configuration reading as the source performs it, as a function of the
process environment. -/
def readConfig (env : String → Option String) : ServerConfig :=
  { NAMESPACE := orElseDefault (env "K8S_NAMESPACE") "default",
    watchTimeoutMs := 5 * 60 * 1000 }

/-- The pod names carried by the event items of a stream, in order. -/
def eventNames : List StreamItem → List String
  | [] => []
  | .event _ _ pod :: rest => pod.name :: eventNames rest
  | .errorAt _ _ :: rest => eventNames rest

/-- The pod name carried by the first event item of a stream, if any. -/
def firstEventName (items : List StreamItem) : Option String :=
  (eventNames items).head?

/-! Injectivity of the decimal rendering used in the time-derived names. -/

/-- Decimal digits of `n`, least significant first, with zero rendered as
a single zero digit, matching what `Nat.toDigits` prints. -/
def padDigits (n : Nat) : List Nat :=
  if n = 0 then [0] else Nat.digits 10 n

theorem digitChar_inj (d1 d2 : Nat) (h1 : d1 < 10) (h2 : d2 < 10)
    (h : Nat.digitChar d1 = Nat.digitChar d2) : d1 = d2 := by
  interval_cases d1 <;> interval_cases d2 <;> revert h <;> decide

theorem map_digitChar_inj (l1 : List Nat) : ∀ l2 : List Nat,
    (∀ x ∈ l1, x < 10) → (∀ x ∈ l2, x < 10) →
    l1.map Nat.digitChar = l2.map Nat.digitChar → l1 = l2 := by
  induction l1 with
  | nil =>
    intro l2 _ _ h
    cases l2 with
    | nil => rfl
    | cons b t => simp at h
  | cons a t1 ih =>
    intro l2 h1 h2 h
    cases l2 with
    | nil => simp at h
    | cons b t2 =>
      simp only [List.map_cons, List.cons.injEq] at h
      have ha : a < 10 := h1 a (by simp)
      have hb : b < 10 := h2 b (by simp)
      have hab : a = b := digitChar_inj a b ha hb h.1
      have ht : t1 = t2 :=
        ih t2 (fun x hx => h1 x (by simp [hx])) (fun x hx => h2 x (by simp [hx])) h.2
      rw [hab, ht]

theorem toDigitsCore_eq_digits (fuel : Nat) : ∀ (n : Nat) (ds : List Char),
    0 < n → n < fuel →
    Nat.toDigitsCore 10 fuel n ds
      = ((Nat.digits 10 n).map Nat.digitChar).reverse ++ ds := by
  induction fuel with
  | zero => intro n ds _ hf; omega
  | succ fuel ih =>
    intro n ds h0 hf
    rw [Nat.toDigitsCore]
    by_cases hn : n / 10 = 0
    · simp only [hn, if_pos rfl]
      rw [Nat.digits_def' (by norm_num : 1 < 10) h0, hn]
      simp
    · simp only [hn, if_neg hn]
      have hdiv : n / 10 < n := Nat.div_lt_self h0 (by norm_num)
      have hlt : n / 10 < fuel := by omega
      rw [ih (n / 10) (Nat.digitChar (n % 10) :: ds) (Nat.pos_of_ne_zero hn) hlt]
      rw [Nat.digits_def' (by norm_num : 1 < 10) h0]
      simp

theorem toDigits_eq_padDigits (n : Nat) :
    Nat.toDigits 10 n = ((padDigits n).map Nat.digitChar).reverse := by
  by_cases h : n = 0
  · subst h; rfl
  · rw [Nat.toDigits,
      toDigitsCore_eq_digits (n + 1) n [] (Nat.pos_of_ne_zero h) (Nat.lt_succ_self n)]
    simp [padDigits, h]

theorem padDigits_lt (n : Nat) : ∀ x ∈ padDigits n, x < 10 := by
  intro x hx
  by_cases h : n = 0
  · subst h; simp [padDigits] at hx; omega
  · simp only [padDigits, if_neg h] at hx
    exact Nat.digits_lt_base (by norm_num) hx

theorem ofDigits_padDigits (n : Nat) : Nat.ofDigits 10 (padDigits n) = n := by
  by_cases h : n = 0
  · subst h; simp [padDigits, Nat.ofDigits]
  · simp [padDigits, h, Nat.ofDigits_digits]

theorem natRepr_inj (m n : Nat) (h : Nat.repr m = Nat.repr n) : m = n := by
  have hd : Nat.toDigits 10 m = Nat.toDigits 10 n := by
    have hdata := congrArg String.data h
    simpa [Nat.repr, List.asString] using hdata
  rw [toDigits_eq_padDigits, toDigits_eq_padDigits] at hd
  have hrev : (padDigits m).map Nat.digitChar = (padDigits n).map Nat.digitChar :=
    List.reverse_injective hd
  have hpad : padDigits m = padDigits n :=
    map_digitChar_inj (padDigits m) (padDigits n) (padDigits_lt m) (padDigits_lt n) hrev
  have hof := congrArg (Nat.ofDigits 10) hpad
  rwa [ofDigits_padDigits, ofDigits_padDigits] at hof

theorem podNameOf_inj (n1 n2 : Nat) (h : podNameOf n1 = podNameOf n2) : n1 = n2 := by
  apply natRepr_inj
  have hdata := congrArg String.data h
  simp only [podNameOf, String.data_append] at hdata
  have hrepr := List.append_cancel_left hdata
  exact String.ext hrepr

/-! Helper lemmas about the watch promise. -/

theorem runWatch_abortCalls_established (timeoutMs : Nat) (sn : Bool) :
    ∀ (items : List StreamItem) (nm : String),
      ((runWatch timeoutMs true sn nm items).settle = Settle.term →
        (runWatch timeoutMs true sn nm items).abortCalls = 1) ∧
      ((runWatch timeoutMs true sn nm items).settle = Settle.timedOut →
        (runWatch timeoutMs true sn nm items).abortCalls = 1) ∧
      (∀ e, (runWatch timeoutMs true sn nm items).settle = Settle.streamErr e →
        (runWatch timeoutMs true sn nm items).abortCalls = 0) := by
  intro items
  induction items with
  | nil => intro nm; refine ⟨?_, ?_, ?_⟩ <;> simp [runWatch]
  | cons item rest ih =>
    intro nm
    cases item with
    | event t evT pod =>
      by_cases ht : t < timeoutMs
      · by_cases hterm : terminalPhase pod.phase
        · refine ⟨?_, ?_, ?_⟩ <;> simp [runWatch, ht, hterm]
        · simpa [runWatch, ht, hterm] using ih (if sn then pod.name else nm)
      · refine ⟨?_, ?_, ?_⟩ <;> simp [runWatch, ht]
    | errorAt t msg =>
      by_cases ht : t < timeoutMs
      · refine ⟨?_, ?_, ?_⟩ <;> simp [runWatch, ht]
      · refine ⟨?_, ?_, ?_⟩ <;> simp [runWatch, ht]

theorem runWatch_streamErr_abortCalls (timeoutMs : Nat) (est sn : Bool) :
    ∀ (items : List StreamItem) (nm : String) (e : String),
      (runWatch timeoutMs est sn nm items).settle = Settle.streamErr e →
      (runWatch timeoutMs est sn nm items).abortCalls = 0 := by
  intro items
  induction items with
  | nil => intro nm e h; simp [runWatch] at h
  | cons item rest ih =>
    intro nm e h
    cases item with
    | event t evT pod =>
      by_cases ht : t < timeoutMs
      · by_cases hterm : terminalPhase pod.phase
        · simp [runWatch, ht, hterm] at h
        · simp only [runWatch, if_pos ht, if_neg hterm] at h ⊢
          exact ih (if sn then pod.name else nm) e h
      · simp [runWatch, ht] at h
    | errorAt t msg =>
      by_cases ht : t < timeoutMs
      · simp [runWatch, ht]
      · simp [runWatch, ht] at h

theorem runWatch_lastName_mem (timeoutMs : Nat) (est : Bool) :
    ∀ (items : List StreamItem) (nm : String),
      (runWatch timeoutMs est true nm items).settle = Settle.term →
      (runWatch timeoutMs est true nm items).lastName ∈ eventNames items := by
  intro items
  induction items with
  | nil => intro nm h; simp [runWatch] at h
  | cons item rest ih =>
    intro nm h
    cases item with
    | event t evT pod =>
      by_cases ht : t < timeoutMs
      · by_cases hterm : terminalPhase pod.phase
        · simp [runWatch, ht, hterm, eventNames]
        · simp only [runWatch, if_pos ht, if_neg hterm, if_pos rfl] at h ⊢
          simp only [eventNames, List.mem_cons]
          exact Or.inr (ih pod.name h)
      · simp [runWatch, ht] at h
    | errorAt t msg =>
      by_cases ht : t < timeoutMs
      · simp [runWatch, ht] at h
      · simp [runWatch, ht] at h

theorem fetchUrlPod_unitName (now : Nat) (c : Cluster) :
    (fetchUrlPod now c).unitName = podNameOf now := by
  unfold fetchUrlPod
  split
  · rfl
  · dsimp only
    split <;> rfl

theorem fetchUrlPod_createCalls (now : Nat) (c : Cluster) :
    (fetchUrlPod now c).createCalls = 1 := by
  unfold fetchUrlPod
  split
  · rfl
  · dsimp only
    split <;> rfl

theorem fetchUrlJob_createCalls (now : Nat) (c : Cluster) :
    (fetchUrlJob now c).createCalls = 1 := by
  unfold fetchUrlJob
  split
  · rfl
  · dsimp only
    split <;> rfl

theorem fetchUrlJob_deleteCalls (now : Nat) (c : Cluster) :
    (fetchUrlJob now c).deleteCalls = 0 := by
  unfold fetchUrlJob
  split
  · rfl
  · dsimp only
    split <;> rfl

theorem terminalPhase_pending : terminalPhase (some "Pending") = false := by decide

theorem terminalPhase_running : terminalPhase (some "Running") = false := by decide

theorem terminalPhase_succeeded : terminalPhase (some "Succeeded") = true := by decide

theorem terminalPhase_failed : terminalPhase (some "Failed") = true := by decide

theorem fetchUrlPod_submission_eq (now : Nat) (c : Cluster) (e : String)
    (hc : c.createResult = Except.error e) :
    fetchUrlPod now c =
      { outcome := Outcome.submissionError e, unitName := podNameOf now,
        createCalls := 1, watchStarted := false, abortCalls := 0,
        extractName := none, deleteCalls := 0 } := by
  unfold fetchUrlPod
  simp only [hc]

theorem fetchUrlPod_timeout_eq (now : Nat) (c : Cluster)
    (hc : c.createResult = Except.ok ())
    (hs : (runWatch WATCH_TIMEOUT_MS c.watchEstablished false (podNameOf now)
             c.stream).settle = Settle.timedOut) :
    fetchUrlPod now c =
      { outcome := Outcome.timeoutThrown, unitName := podNameOf now,
        createCalls := 1, watchStarted := true,
        abortCalls := (runWatch WATCH_TIMEOUT_MS c.watchEstablished false
          (podNameOf now) c.stream).abortCalls,
        extractName := none, deleteCalls := 0 } := by
  unfold fetchUrlPod
  simp only [hc]
  simp only [hs]

theorem fetchUrlPod_streamErr_eq (now : Nat) (c : Cluster) (e : String)
    (hc : c.createResult = Except.ok ())
    (hs : (runWatch WATCH_TIMEOUT_MS c.watchEstablished false (podNameOf now)
             c.stream).settle = Settle.streamErr e) :
    fetchUrlPod now c =
      { outcome := Outcome.streamFailure e, unitName := podNameOf now,
        createCalls := 1, watchStarted := true,
        abortCalls := (runWatch WATCH_TIMEOUT_MS c.watchEstablished false
          (podNameOf now) c.stream).abortCalls,
        extractName := none, deleteCalls := 0 } := by
  unfold fetchUrlPod
  simp only [hc]
  simp only [hs]

theorem fetchUrlPod_term_logs_ok (now : Nat) (c : Cluster) (text : String)
    (hc : c.createResult = Except.ok ())
    (hs : (runWatch WATCH_TIMEOUT_MS c.watchEstablished false (podNameOf now)
             c.stream).settle = Settle.term)
    (hl : c.logsFor (podNameOf now) = Except.ok text) :
    fetchUrlPod now c =
      { outcome := Outcome.response text, unitName := podNameOf now,
        createCalls := 1, watchStarted := true,
        abortCalls := (runWatch WATCH_TIMEOUT_MS c.watchEstablished false
          (podNameOf now) c.stream).abortCalls,
        extractName := some (podNameOf now), deleteCalls := 1 } := by
  unfold fetchUrlPod
  simp only [hc]
  simp only [hs, hl]

theorem fetchUrlPod_term_logs_err (now : Nat) (c : Cluster) (e : String)
    (hc : c.createResult = Except.ok ())
    (hs : (runWatch WATCH_TIMEOUT_MS c.watchEstablished false (podNameOf now)
             c.stream).settle = Settle.term)
    (hl : c.logsFor (podNameOf now) = Except.error e) :
    fetchUrlPod now c =
      { outcome := Outcome.response ("Error retrieving logs: " ++ e),
        unitName := podNameOf now, createCalls := 1, watchStarted := true,
        abortCalls := (runWatch WATCH_TIMEOUT_MS c.watchEstablished false
          (podNameOf now) c.stream).abortCalls,
        extractName := some (podNameOf now), deleteCalls := 1 } := by
  unfold fetchUrlPod
  simp only [hc]
  simp only [hs, hl]

theorem fetchUrlPod_term_response (now : Nat) (c : Cluster)
    (hc : c.createResult = Except.ok ())
    (hs : (runWatch WATCH_TIMEOUT_MS c.watchEstablished false (podNameOf now)
             c.stream).settle = Settle.term) :
    (∃ s, (fetchUrlPod now c).outcome = Outcome.response s) ∧
    (fetchUrlPod now c).abortCalls =
      (runWatch WATCH_TIMEOUT_MS c.watchEstablished false (podNameOf now)
        c.stream).abortCalls ∧
    (fetchUrlPod now c).deleteCalls = 1 := by
  cases hl : c.logsFor (podNameOf now) with
  | ok text =>
    rw [fetchUrlPod_term_logs_ok now c text hc hs hl]
    exact ⟨⟨text, rfl⟩, rfl, rfl⟩
  | error e =>
    rw [fetchUrlPod_term_logs_err now c e hc hs hl]
    exact ⟨⟨"Error retrieving logs: " ++ e, rfl⟩, rfl, rfl⟩

theorem fetchUrlJob_term_extract (now : Nat) (c : Cluster)
    (hc : c.createResult = Except.ok ())
    (hs : (runWatch WATCH_TIMEOUT_MS c.watchEstablished true "" c.stream).settle
            = Settle.term) :
    (fetchUrlJob now c).extractName =
      some (runWatch WATCH_TIMEOUT_MS c.watchEstablished true "" c.stream).lastName := by
  unfold fetchUrlJob
  simp only [hc]
  simp only [hs]

/-! Claim theorems. -/

/-- C5 (confirmed): if the scheduler rejects the create call, the handler
rethrows the error immediately as the single outcome of the call; exactly
one create call was made (no retry), and neither the watch nor the log
read nor the delete is performed, in both variants. -/
theorem submission_error_propagates (now : Nat) (c : Cluster) (e : String)
    (hc : c.createResult = Except.error e) :
    (fetchUrlPod now c).outcome = Outcome.submissionError e ∧
    (fetchUrlPod now c).createCalls = 1 ∧
    (fetchUrlPod now c).watchStarted = false ∧
    (fetchUrlPod now c).abortCalls = 0 ∧
    (fetchUrlPod now c).extractName = none ∧
    (fetchUrlPod now c).deleteCalls = 0 ∧
    (fetchUrlJob now c).outcome = Outcome.submissionError e ∧
    (fetchUrlJob now c).watchStarted = false ∧
    (fetchUrlJob now c).deleteCalls = 0 := by
  unfold fetchUrlPod fetchUrlJob
  simp [hc]

/-- Cluster whose create call is rejected with an authorization error. -/
def clusterAuthReject : Cluster :=
  { createResult := Except.error "Unauthorized", watchEstablished := false,
    stream := [], logsFor := fun _ => Except.ok "", deleteResult := Except.ok () }

theorem submission_error_propagates_witness :
    (fetchUrlPod 0 clusterAuthReject).outcome = Outcome.submissionError "Unauthorized" ∧
    (fetchUrlPod 0 clusterAuthReject).createCalls = 1 ∧
    (fetchUrlPod 0 clusterAuthReject).watchStarted = false ∧
    (fetchUrlPod 0 clusterAuthReject).abortCalls = 0 ∧
    (fetchUrlPod 0 clusterAuthReject).extractName = none ∧
    (fetchUrlPod 0 clusterAuthReject).deleteCalls = 0 ∧
    (fetchUrlJob 0 clusterAuthReject).outcome = Outcome.submissionError "Unauthorized" ∧
    (fetchUrlJob 0 clusterAuthReject).watchStarted = false ∧
    (fetchUrlJob 0 clusterAuthReject).deleteCalls = 0 :=
  submission_error_propagates 0 clusterAuthReject "Unauthorized" rfl

/-- C9 (counterexample): the watch timeout is not read from the
environment: even with every environment variable set, the configured
timeout equals the one obtained from the empty environment, while the
namespace does react to the environment, so only one of the two
configuration values is environment-supplied. -/
theorem timeout_not_env_read_cex :
    (readConfig fun _ => some "7").watchTimeoutMs
      = (readConfig fun _ => none).watchTimeoutMs ∧
    (readConfig fun _ => some "7").NAMESPACE
      ≠ (readConfig fun _ => none).NAMESPACE := by
  decide

/-- C9 (amended): the target namespace is environment-supplied from the
variable K8S_NAMESPACE and falls back to the value default both when the
variable is absent and when it is set to the empty string (the or-else
of the source treats the empty string as falsy); a nonempty value is
taken as is; but the watch timeout duration is the hardcoded constant of
300000 milliseconds for every environment. -/
theorem config_reading :
    (∀ env : String → Option String,
       (readConfig env).NAMESPACE
         = orElseDefault (env "K8S_NAMESPACE") "default") ∧
    ((readConfig fun _ => none).NAMESPACE = "default") ∧
    ((readConfig fun k =>
        if k = "K8S_NAMESPACE" then some "" else none).NAMESPACE
      = "default") ∧
    (∀ s : String,
       (readConfig fun k =>
         if k = "K8S_NAMESPACE" then some s else none).NAMESPACE
       = if s = "" then "default" else s) ∧
    (∀ env : String → Option String,
       (readConfig env).watchTimeoutMs = 5 * 60 * 1000) := by
  refine ⟨fun env => rfl, rfl, by decide, fun s => ?_, fun env => rfl⟩
  simp [readConfig, orElseDefault]

/-- C10 (confirmed): an event whose snapshot lacks a phase is coerced to
the empty string and is not terminal: the predicate is false on it, and
the watch just continues with the rest of the stream; moreover the
predicate holds exactly for the phases Succeeded and Failed, so the watch
can only resolve on one of those. -/
theorem missing_phase_not_terminal :
    terminalPhase none = false ∧
    (∀ ph : Option String,
       terminalPhase ph = true ↔ ph = some "Succeeded" ∨ ph = some "Failed") ∧
    (∀ (ms : Nat) (est sn : Bool) (nm evT pn : String) (t : Nat)
       (rest : List StreamItem), t < ms →
       runWatch ms est sn nm (StreamItem.event t evT ⟨pn, none⟩ :: rest)
         = runWatch ms est sn (if sn then pn else nm) rest) := by
  refine ⟨rfl, ?_, ?_⟩
  · intro ph
    cases ph with
    | none => simp [terminalPhase]
    | some s =>
      simp only [terminalPhase, Option.getD_some, Option.some.injEq]
      constructor
      · intro h
        have hmem : s ∈ ["Succeeded", "Failed"] := by
          simpa using h
        simpa using hmem
      · intro h
        rcases h with h | h <;> subst h <;> decide
  · intro ms est sn nm evT pn t rest ht
    simp [runWatch, ht, terminalPhase]

theorem missing_phase_not_terminal_witness :
    runWatch 300000 true true "x" [StreamItem.event 3 "ADDED" ⟨"p1", none⟩]
      = runWatch 300000 true true (if true then "p1" else "x") [] :=
  missing_phase_not_terminal.2.2 300000 true true "x" "ADDED" "p1" 3 [] (by decide)

/-- Cluster in which no event at all arrives before the deadline. -/
def clusterNoEvents : Cluster :=
  { createResult := Except.ok (), watchEstablished := true, stream := [],
    logsFor := fun _ => Except.ok "page", deleteResult := Except.ok () }

/-- Cluster in which the job-spawned pod succeeds quickly. -/
def clusterJobQuickTerm : Cluster :=
  { createResult := Except.ok (), watchEstablished := true,
    stream := [StreamItem.event 40 "MODIFIED"
                 ⟨"fetch-job-0-abcde", some "Succeeded"⟩],
    logsFor := fun _ => Except.ok "page", deleteResult := Except.ok () }

/-- C1 (counterexample): cleanup does not run on every path. On the
Timeout path the watch promise rejects and the rejection propagates out
of the handler before the delete call is reached, so the call ends in the
thrown Timeout with zero delete calls; and in the job variant the delete
call is commented out, so even a successful run performs no cleanup. -/
theorem cleanup_skipped_on_timeout_cex :
    (fetchUrlPod 0 clusterNoEvents).outcome = Outcome.timeoutThrown ∧
    (fetchUrlPod 0 clusterNoEvents).deleteCalls = 0 ∧
    (fetchUrlJob 0 clusterJobQuickTerm).outcome = Outcome.response "page" ∧
    (fetchUrlJob 0 clusterJobQuickTerm).deleteCalls = 0 := by
  decide

/-- C1 (amended): in the pod variant the delete call runs exactly once on
every path that observes a terminal phase within the deadline, including
the path where reading the logs fails, but it runs zero times on the
Timeout and stream-error paths, where the promise rejection propagates
before cleanup; in the job variant the delete call never runs. -/
theorem cleanup_paths (now : Nat) (c : Cluster)
    (hc : c.createResult = Except.ok ()) :
    ((runWatch WATCH_TIMEOUT_MS c.watchEstablished false (podNameOf now)
        c.stream).settle = Settle.term → (fetchUrlPod now c).deleteCalls = 1) ∧
    ((runWatch WATCH_TIMEOUT_MS c.watchEstablished false (podNameOf now)
        c.stream).settle = Settle.timedOut → (fetchUrlPod now c).deleteCalls = 0) ∧
    (∀ e, (runWatch WATCH_TIMEOUT_MS c.watchEstablished false (podNameOf now)
        c.stream).settle = Settle.streamErr e →
       (fetchUrlPod now c).deleteCalls = 0) ∧
    (fetchUrlJob now c).deleteCalls = 0 := by
  refine ⟨?_, ?_, ?_, fetchUrlJob_deleteCalls now c⟩
  · intro hs
    exact (fetchUrlPod_term_response now c hc hs).2.2
  · intro hs
    rw [fetchUrlPod_timeout_eq now c hc hs]
  · intro e hs
    rw [fetchUrlPod_streamErr_eq now c e hc hs]

/-- Cluster whose pod fails terminally and whose log store then rejects
the read, exercising the extraction-error path before cleanup. -/
def clusterTermLogsGone : Cluster :=
  { createResult := Except.ok (), watchEstablished := true,
    stream := [StreamItem.event 70 "MODIFIED" ⟨"fetch-pod-0", some "Failed"⟩],
    logsFor := fun _ => Except.error "pod already gone",
    deleteResult := Except.ok () }

theorem cleanup_paths_witness :
    (fetchUrlPod 0 clusterTermLogsGone).deleteCalls = 1 :=
  (cleanup_paths 0 clusterTermLogsGone rfl).1 (by decide)

/-- Cluster whose watch stream errors out shortly after being set up. -/
def clusterStreamError : Cluster :=
  { createResult := Except.ok (), watchEstablished := true,
    stream := [StreamItem.errorAt 10 "ECONNRESET"],
    logsFor := fun _ => Except.ok "", deleteResult := Except.ok () }

/-- C2 (counterexample): on the stream-error exit from Watching the
cancel routine is never invoked: the done-callback only clears the timer
and rejects, without calling abort, so a stream error at 10 milliseconds
leaves the call with zero abort calls, refuting exactly-once on that
path. -/
theorem abort_skipped_on_stream_error_cex :
    (fetchUrlPod 0 clusterStreamError).outcome
      = Outcome.streamFailure "ECONNRESET" ∧
    (fetchUrlPod 0 clusterStreamError).abortCalls = 0 := by
  decide

/-- C2 (amended): with the watch request established, the abort routine
of the watch request is invoked exactly once on the normal terminal-event
exit and exactly once on the deadline-timeout exit, but zero times on the
stream-error exit. -/
theorem watch_abort_paths (now : Nat) (c : Cluster)
    (hc : c.createResult = Except.ok ())
    (hest : c.watchEstablished = true) :
    ((∃ s, (fetchUrlPod now c).outcome = Outcome.response s) →
       (fetchUrlPod now c).abortCalls = 1) ∧
    ((fetchUrlPod now c).outcome = Outcome.timeoutThrown →
       (fetchUrlPod now c).abortCalls = 1) ∧
    (∀ e, (fetchUrlPod now c).outcome = Outcome.streamFailure e →
       (fetchUrlPod now c).abortCalls = 0) := by
  obtain ⟨habortT, habortD, habortE⟩ :=
    runWatch_abortCalls_established WATCH_TIMEOUT_MS false c.stream (podNameOf now)
  cases hsettle : (runWatch WATCH_TIMEOUT_MS c.watchEstablished false
      (podNameOf now) c.stream).settle with
  | term =>
    obtain ⟨⟨s, hout⟩, habort, -⟩ := fetchUrlPod_term_response now c hc hsettle
    rw [hest] at hsettle habort
    refine ⟨fun _ => ?_, fun hto => ?_, fun e hse => ?_⟩
    · rw [habort]; exact habortT hsettle
    · rw [hout] at hto; exact absurd hto (by simp)
    · rw [hout] at hse; exact absurd hse (by simp)
  | timedOut =>
    have heq := fetchUrlPod_timeout_eq now c hc hsettle
    rw [hest] at hsettle heq
    refine ⟨fun hresp => ?_, fun _ => ?_, fun e hse => ?_⟩
    · obtain ⟨s, hout⟩ := hresp
      rw [heq] at hout
      exact absurd hout (by simp)
    · rw [heq]
      exact habortD hsettle
    · rw [heq] at hse
      exact absurd hse (by simp)
  | streamErr e0 =>
    have heq := fetchUrlPod_streamErr_eq now c e0 hc hsettle
    have habort0 := runWatch_streamErr_abortCalls WATCH_TIMEOUT_MS
      c.watchEstablished false c.stream (podNameOf now) e0 hsettle
    refine ⟨fun hresp => ?_, fun hto => ?_, fun e hse => ?_⟩
    · obtain ⟨s, hout⟩ := hresp
      rw [heq] at hout
      exact absurd hout (by simp)
    · rw [heq] at hto
      exact absurd hto (by simp)
    · rw [heq]
      exact habort0

/-- Cluster whose pod succeeds at 50 milliseconds. -/
def clusterQuickSuccess : Cluster :=
  { createResult := Except.ok (), watchEstablished := true,
    stream := [StreamItem.event 50 "MODIFIED" ⟨"fetch-pod-0", some "Succeeded"⟩],
    logsFor := fun _ => Except.ok "page", deleteResult := Except.ok () }

theorem watch_abort_paths_witness :
    (fetchUrlPod 0 clusterQuickSuccess).abortCalls = 1 :=
  (watch_abort_paths 0 clusterQuickSuccess rfl rfl).1 ⟨"page", by decide⟩

/-- C4 (confirmed): when no terminal phase is observed before the
hardcoded five-minute deadline, the deadline timer settles the call: the
surfaced outcome is the thrown Timeout, a constructor distinct from the
response produced for a scheduler-reported Failed phase, and the watch
request is aborted exactly once, inside the timeout handler itself,
before the promise rejects. -/
theorem timeout_outcome_distinct (now : Nat) (c : Cluster)
    (hc : c.createResult = Except.ok ())
    (hest : c.watchEstablished = true)
    (hs : (runWatch WATCH_TIMEOUT_MS c.watchEstablished false (podNameOf now)
            c.stream).settle = Settle.timedOut) :
    (fetchUrlPod now c).outcome = Outcome.timeoutThrown ∧
    (fetchUrlPod now c).abortCalls = 1 ∧
    (∀ s : String, Outcome.timeoutThrown ≠ Outcome.response s) := by
  have heq := fetchUrlPod_timeout_eq now c hc hs
  rw [hest] at heq hs
  obtain ⟨-, habortD, -⟩ :=
    runWatch_abortCalls_established WATCH_TIMEOUT_MS false c.stream (podNameOf now)
  refine ⟨by rw [heq], ?_, ?_⟩
  · rw [heq]
    exact habortD hs
  · intro s h
    exact Outcome.noConfusion h

/-- Cluster whose pod stays Pending forever: one non-terminal event, then
nothing more before the deadline. -/
def clusterStuckPending : Cluster :=
  { createResult := Except.ok (), watchEstablished := true,
    stream := [StreamItem.event 1000 "ADDED" ⟨"fetch-pod-0", some "Pending"⟩],
    logsFor := fun _ => Except.ok "", deleteResult := Except.ok () }

theorem timeout_outcome_distinct_witness :
    (fetchUrlPod 0 clusterStuckPending).outcome = Outcome.timeoutThrown ∧
    (fetchUrlPod 0 clusterStuckPending).abortCalls = 1 ∧
    (∀ s : String, Outcome.timeoutThrown ≠ Outcome.response s) :=
  timeout_outcome_distinct 0 clusterStuckPending rfl rfl (by decide)

/-- C3 (confirmed): when the stream reaches a terminal phase within the
deadline and the log read succeeds, the response text is exactly the
captured standard output of the unit: a Pending, Running, Succeeded
stream yields the full output, and a Pending, Failed stream yields the
output produced up to failure, delivered as a normal response rather
than an empty string or a thrown error. -/
theorem result_equals_captured_output
    (now t1 t2 t3 : Nat) (e1 e2 e3 nm text : String) (c : Cluster)
    (hc : c.createResult = Except.ok ())
    (h1 : t1 < WATCH_TIMEOUT_MS) (h2 : t2 < WATCH_TIMEOUT_MS)
    (h3 : t3 < WATCH_TIMEOUT_MS)
    (hl : c.logsFor (podNameOf now) = Except.ok text) :
    (c.stream = [StreamItem.event t1 e1 ⟨nm, some "Pending"⟩,
                 StreamItem.event t2 e2 ⟨nm, some "Running"⟩,
                 StreamItem.event t3 e3 ⟨nm, some "Succeeded"⟩] →
       (fetchUrlPod now c).outcome = Outcome.response text) ∧
    (c.stream = [StreamItem.event t1 e1 ⟨nm, some "Pending"⟩,
                 StreamItem.event t2 e2 ⟨nm, some "Failed"⟩] →
       (fetchUrlPod now c).outcome = Outcome.response text) := by
  constructor
  · intro hstream
    have hs : (runWatch WATCH_TIMEOUT_MS c.watchEstablished false (podNameOf now)
        c.stream).settle = Settle.term := by
      rw [hstream]
      simp [runWatch, h1, h2, h3, terminalPhase_pending, terminalPhase_running,
        terminalPhase_succeeded]
    rw [fetchUrlPod_term_logs_ok now c text hc hs hl]
  · intro hstream
    have hs : (runWatch WATCH_TIMEOUT_MS c.watchEstablished false (podNameOf now)
        c.stream).settle = Settle.term := by
      rw [hstream]
      simp [runWatch, h1, h2, terminalPhase_pending, terminalPhase_failed]
    rw [fetchUrlPod_term_logs_ok now c text hc hs hl]

/-- Cluster whose pod goes Pending, Running, Succeeded and whose log
store holds the page rendered by the worker. -/
def clusterFullLifecycle : Cluster :=
  { createResult := Except.ok (), watchEstablished := true,
    stream := [StreamItem.event 10 "ADDED" ⟨"fetch-pod-0", some "Pending"⟩,
               StreamItem.event 20 "MODIFIED" ⟨"fetch-pod-0", some "Running"⟩,
               StreamItem.event 30 "MODIFIED" ⟨"fetch-pod-0", some "Succeeded"⟩],
    logsFor := fun _ => Except.ok "<html>example</html>",
    deleteResult := Except.ok () }

theorem result_equals_captured_output_witness :
    (fetchUrlPod 0 clusterFullLifecycle).outcome
      = Outcome.response "<html>example</html>" :=
  (result_equals_captured_output 0 10 20 30 "ADDED" "MODIFIED" "MODIFIED"
    "fetch-pod-0" "<html>example</html>" clusterFullLifecycle rfl
    (by decide) (by decide) (by decide) rfl).1 rfl

/-- C6 (confirmed): when the log read fails after a terminal phase was
observed, the call does not abort: the handler substitutes a text payload
describing the extraction error as the result, still performs the delete
call exactly once, and still returns exactly one normal response built
from the identity it extracted. -/
theorem extraction_error_nonfatal (now : Nat) (c : Cluster) (e : String)
    (hc : c.createResult = Except.ok ())
    (hs : (runWatch WATCH_TIMEOUT_MS c.watchEstablished false (podNameOf now)
            c.stream).settle = Settle.term)
    (hl : c.logsFor (podNameOf now) = Except.error e) :
    (fetchUrlPod now c).outcome
      = Outcome.response ("Error retrieving logs: " ++ e) ∧
    (fetchUrlPod now c).deleteCalls = 1 ∧
    (fetchUrlPod now c).extractName = some (podNameOf now) := by
  rw [fetchUrlPod_term_logs_err now c e hc hs hl]
  exact ⟨rfl, rfl, rfl⟩

/-- Cluster whose pod succeeds but whose log endpoint then rejects the
read with a permission error. -/
def clusterExtractionFail : Cluster :=
  { createResult := Except.ok (), watchEstablished := true,
    stream := [StreamItem.event 60 "MODIFIED" ⟨"fetch-pod-0", some "Succeeded"⟩],
    logsFor := fun _ => Except.error "logs forbidden",
    deleteResult := Except.ok () }

theorem extraction_error_nonfatal_witness :
    (fetchUrlPod 0 clusterExtractionFail).outcome
      = Outcome.response ("Error retrieving logs: " ++ "logs forbidden") ∧
    (fetchUrlPod 0 clusterExtractionFail).deleteCalls = 1 ∧
    (fetchUrlPod 0 clusterExtractionFail).extractName = some (podNameOf 0) :=
  extraction_error_nonfatal 0 clusterExtractionFail "logs forbidden" rfl
    (by decide) rfl

/-- Cluster for the job variant in which two differently named pods show
up on the stream and the second one is the one that terminates. -/
def clusterTwoPods : Cluster :=
  { createResult := Except.ok (), watchEstablished := true,
    stream := [StreamItem.event 1 "ADDED" ⟨"job-pod-first", some "Pending"⟩,
               StreamItem.event 2 "MODIFIED" ⟨"job-pod-second", some "Succeeded"⟩],
    logsFor := fun _ => Except.ok "out", deleteResult := Except.ok () }

/-- C7 (counterexample): the job variant reassigns the observed pod name
on every event, not only on the first one: with a first event naming
job-pod-first and a terminal second event naming job-pod-second, the
identity passed to the log reader is job-pod-second, not the observedName
of the first LifecycleEvent. -/
theorem extract_name_not_first_event_cex :
    firstEventName clusterTwoPods.stream = some "job-pod-first" ∧
    (fetchUrlJob 0 clusterTwoPods).extractName = some "job-pod-second" ∧
    (fetchUrlJob 0 clusterTwoPods).extractName
      ≠ firstEventName clusterTwoPods.stream := by
  decide

/-- C7 (amended): when the job-variant watch resolves on a terminal
event, the identity passed to the log reader is the observedName recorded
from the last processed LifecycleEvent, and that identity is always one
that was observed on the stream; the extractor is never invoked with an
identity that no event carried. -/
theorem extract_name_from_stream (now : Nat) (c : Cluster)
    (hc : c.createResult = Except.ok ())
    (hs : (runWatch WATCH_TIMEOUT_MS c.watchEstablished true "" c.stream).settle
            = Settle.term) :
    (fetchUrlJob now c).extractName
      = some (runWatch WATCH_TIMEOUT_MS c.watchEstablished true ""
          c.stream).lastName ∧
    (runWatch WATCH_TIMEOUT_MS c.watchEstablished true "" c.stream).lastName
      ∈ eventNames c.stream := by
  exact ⟨fetchUrlJob_term_extract now c hc hs,
    runWatch_lastName_mem WATCH_TIMEOUT_MS c.watchEstablished c.stream "" hs⟩

theorem extract_name_from_stream_witness :
    (fetchUrlJob 0 clusterJobQuickTerm).extractName
      = some (runWatch WATCH_TIMEOUT_MS clusterJobQuickTerm.watchEstablished
          true "" clusterJobQuickTerm.stream).lastName ∧
    (runWatch WATCH_TIMEOUT_MS clusterJobQuickTerm.watchEstablished true ""
        clusterJobQuickTerm.stream).lastName
      ∈ eventNames clusterJobQuickTerm.stream :=
  extract_name_from_stream 0 clusterJobQuickTerm rfl (by decide)

/-- Cluster environment of a first concurrent call. -/
def clusterCallA : Cluster :=
  { createResult := Except.ok (), watchEstablished := true,
    stream := [StreamItem.event 1 "MODIFIED" ⟨"fetch-pod-5", some "Succeeded"⟩],
    logsFor := fun _ => Except.ok "first page", deleteResult := Except.ok () }

/-- Cluster environment of a second, independent concurrent call. -/
def clusterCallB : Cluster :=
  { createResult := Except.ok (), watchEstablished := true,
    stream := [StreamItem.event 2 "MODIFIED" ⟨"fetch-pod-5", some "Failed"⟩],
    logsFor := fun _ => Except.ok "second page", deleteResult := Except.ok () }

/-- C8 (counterexample): descriptor names are derived from Date.now()
alone, so two distinct calls whose timestamp reads fall in the same
millisecond build identical names: two calls that both observe timestamp
5 each name their pod fetch-pod-5, even though everything else about the
two calls differs. -/
theorem same_millisecond_name_collision_cex :
    (fetchUrlPod 5 clusterCallA).unitName = "fetch-pod-5" ∧
    (fetchUrlPod 5 clusterCallB).unitName = "fetch-pod-5" ∧
    (fetchUrlPod 5 clusterCallA).unitName = (fetchUrlPod 5 clusterCallB).unitName := by
  decide

/-- C8 (amended): every call performs exactly one create call in both
variants, and two calls observing distinct timestamps build distinct unit
names; independence of the two state machines holds by construction, the
trace of a call being a function of its own timestamp and cluster
environment alone. -/
theorem distinct_stamps_distinct_names (n1 n2 : Nat) (c1 c2 : Cluster)
    (hne : n1 ≠ n2) :
    (fetchUrlPod n1 c1).createCalls = 1 ∧
    (fetchUrlJob n1 c1).createCalls = 1 ∧
    (fetchUrlPod n1 c1).unitName ≠ (fetchUrlPod n2 c2).unitName := by
  refine ⟨fetchUrlPod_createCalls n1 c1, fetchUrlJob_createCalls n1 c1, ?_⟩
  rw [fetchUrlPod_unitName, fetchUrlPod_unitName]
  intro h
  exact hne (podNameOf_inj n1 n2 h)

theorem distinct_stamps_distinct_names_witness :
    (fetchUrlPod 5 clusterCallA).createCalls = 1 ∧
    (fetchUrlJob 5 clusterCallA).createCalls = 1 ∧
    (fetchUrlPod 5 clusterCallA).unitName ≠ (fetchUrlPod 6 clusterCallB).unitName :=
  distinct_stamps_distinct_names 5 6 clusterCallA clusterCallB (by decide)
